import Mathlib

/-!
Shallow embedding of the grid mfg_batch versioned entity store, translated from
the Rust sources:

* `src/sdk/src/mfg_batch/addressing.rs` — the GS1 address codec;
* `src/contracts/mfg_batch/src/state.rs` — the ledger record-list merge engine
  (`get_mfg_batch` / `set_mfg_batch` / `remove_mfg_batch`);
* `src/contracts/mfg_batch/src/handler.rs` — the `create_mfg_batch` transaction
  handler logic;
* `src/sdk/src/protocol/mfg_batch/state.rs` — the protocol-level domain model
  and builders;
* `src/sdk/src/mfg_batch/store/mod.rs` and `store/error.rs` — the projection
  store domain model and builders;
* `src/sdk/src/mfg_batch/store/diesel/operations/{get,list}_mfg_batch*.rs` and
  `store/diesel/models.rs` — the relational projection queries.

Modelling conventions: Rust `i64`/`i32` become `Int` (no arithmetic in the
embedded code can overflow: the sources only compare these integers), `Vec<T>`
becomes `List T`, `Option`/`Result` become `Option`/`Except`.  The ledger
key-value substrate is modelled as a function from address to the decoded
record list; the wire codec is an external collaborator whose round-trip
contract (`decode (encode x) = x`, spec section 6) lets the embedding carry
decoded values where the Rust code carries bytes.  The permission evaluator
and the GTIN format validator are external to the code under `src/` and are
passed to the handler as result-valued oracles, so every theorem about the
handler holds for every behaviour of those collaborators.
-/

/-! ### String ordering and containment utilities

Rust compares `String`s lexicographically byte-by-byte over their UTF-8
encoding; comparing the code-point sequences gives the same order because
UTF-8 preserves code-point order.  `charListLe` is that lexicographic order
on `List Char`; `strLe` lifts it to `String`. -/

def charListLe : List Char → List Char → Bool
  | [], _ => true
  | _ :: _, [] => false
  | a :: as, b :: bs => if a < b then true else if b < a then false else charListLe as bs

def strLe (a b : String) : Bool :=
  charListLe a.data b.data

/-- Substring containment on code-point lists; `charListContains l pat` is
true iff `pat` occurs contiguously inside `l`.  Models Rust
`str::contains(&str)`. -/
def charListContains (l pat : List Char) : Bool :=
  match l with
  | [] => pat.isEmpty
  | _ :: tl => pat.isPrefixOf l || charListContains tl pat

/-- Rust `str::contains` on the embedded strings. -/
def strContains (s pat : String) : Bool :=
  charListContains s.data pat.data

/-! ### Address codec — `src/sdk/src/mfg_batch/addressing.rs` -/

/-- `hashlib.sha512("grid_mfg_batch").hexdigest()[0:6]`, the application
namespace constant `GRID_NAMESPACE`. -/
def GRID_NAMESPACE : String := "11bb0e"

/-- The entity-kind sub-namespace constant (source constant value `"01"`,
concatenated right after `GRID_NAMESPACE`). -/
def MFG_BATCH_KIND : String := "01"

/-- The 44-character zero filler used before the padded business key. -/
def ZEROS44 : String := "00000000000000000000000000000000000000000000"

/-- Rust `format!("{:0>14}", gtin)`: left-pad with the character `0` to a
minimum width of 14; a string of 14 or more characters is returned
unchanged (`format!` never truncates). -/
def padLeft14 (gtin : String) : String :=
  if gtin.length < 14 then String.mk (List.replicate (14 - gtin.length) '0') ++ gtin
  else gtin

/-- `compute_gs1_mfg_batch_address`: application namespace, entity-kind
sub-namespace, GS1 sub-sub-namespace `"01"`, 44 zeros, the key left-padded
with zeros to width 14, and the suffix `"00"`.  The Rust function has type
`fn (&str) -> String`: it is total and has no error channel. -/
def compute_gs1_mfg_batch_address (gtin : String) : String :=
  GRID_NAMESPACE ++ MFG_BATCH_KIND ++ "01" ++ ZEROS44 ++ padLeft14 gtin ++ "00"

/-! ### Protocol domain model — `src/sdk/src/protocol/mfg_batch/state.rs`

`MfgBatchNamespace` currently has the single variant `Gs1`.  The property
values attached to a protocol `MfgBatch` come from
`protocol::schema::state::PropertyValue`; that module is not under `src/`,
so `SchemaPropertyValue` is modelled from the spec (section 3 property model
and section 6 schema-validator interface) restricted to the two accessors the
code under `src/` consumes: `name()` and `data_type()`. -/

/-- The property data-type tag.  Modelled from the spec: section 3 lists the
tagged union `bytes | boolean | integer | string | enum-ordinal | lat/long
pair | nested struct` (the protocol `DataType` enum itself is outside
`src/`). -/
inductive DataType where
  | bytes
  | boolean
  | number
  | string
  | enum
  | latLong
  | struct_
deriving DecidableEq, Repr

/-- Modelled from the spec: a protocol property value as consumed by the
handler under `src/` — only its `name` and `data_type` accessors are read. -/
structure SchemaPropertyValue where
  name : String
  data_type : DataType
deriving DecidableEq, Repr

inductive MfgBatchNamespace where
  | gs1
deriving DecidableEq, Repr

namespace Protocol

structure MfgBatch where
  mfg_batch_id : String
  mfg_batch_namespace : MfgBatchNamespace
  owner : String
  properties : List SchemaPropertyValue
deriving DecidableEq, Repr

inductive MfgBatchBuildError where
  | missingField (msg : String)
  | emptyVec (msg : String)
deriving DecidableEq, Repr

structure MfgBatchBuilder where
  mfg_batch_id : Option String := none
  mfg_batch_namespace : Option MfgBatchNamespace := none
  owner : Option String := none
  properties : Option (List SchemaPropertyValue) := none
deriving Repr

/-- `MfgBatchBuilder::build`: each `None` field is a `MissingField` error, in
source order. -/
def MfgBatchBuilder.build (b : MfgBatchBuilder) : Except MfgBatchBuildError MfgBatch :=
  match b.mfg_batch_id with
  | none => .error (.missingField "mfg_batch_id field is required")
  | some mfg_batch_id =>
  match b.mfg_batch_namespace with
  | none => .error (.missingField "mfg_batch_namespace field is required")
  | some mfg_batch_namespace =>
  match b.owner with
  | none => .error (.missingField "owner field is required")
  | some owner =>
  match b.properties with
  | none => .error (.missingField "properties field is required")
  | some properties =>
    .ok { mfg_batch_id, mfg_batch_namespace, owner, properties }

inductive MfgBatchListBuildError where
  | missingField (msg : String)
deriving DecidableEq, Repr

structure MfgBatchListBuilder where
  mfg_batches : Option (List MfgBatch) := none
deriving Repr

/-- `MfgBatchListBuilder::build`: a missing list is a `MissingField` error and
an empty list is rejected with `'mfg_batches' cannot be empty`. -/
def MfgBatchListBuilder.build (b : MfgBatchListBuilder) :
    Except MfgBatchListBuildError (List MfgBatch) :=
  match b.mfg_batches with
  | none => .error (.missingField "mfg_batches field is required")
  | some mfg_batches =>
    if mfg_batches.isEmpty then
      .error (.missingField "mfg_batches cannot be empty")
    else
      .ok mfg_batches

end Protocol

/-! ### Ledger merge engine — `src/contracts/mfg_batch/src/state.rs`

The transaction context's key-value state is modelled as a function from
address to the decoded record list stored there (`none` for an absent
entry).  Decoding of present, well-formed entries always succeeds in the
model (spec section 6 requires a bit-exact codec round-trip); the Rust
deserialization-failure branches therefore have no counterpart here. -/

inductive ApplyError where
  | invalidTransaction (msg : String)
  | internalError (msg : String)
deriving DecidableEq, Repr

def BatchKV : Type := String → Option (List Protocol.MfgBatch)

namespace MfgBatchState

/-- `MfgBatchState::get_mfg_batch`: compute the address, read the entry
(absent gives `None`), and linearly scan for the first element with the
requested id. -/
def get_mfg_batch (kv : BatchKV) (mfg_batch_id : String) : Option Protocol.MfgBatch :=
  match kv (compute_gs1_mfg_batch_address mfg_batch_id) with
  | none => none
  | some mfg_batches => mfg_batches.find? (fun p => p.mfg_batch_id == mfg_batch_id)

/-- The index-scan-and-`Vec::remove` in `set_mfg_batch` (find the first index
whose element has the given id, remove that element): remove the first
matching element, keep everything else. -/
def removeFirstMatch (mfg_batches : List Protocol.MfgBatch) (mfg_batch_id : String) :
    List Protocol.MfgBatch :=
  match mfg_batches with
  | [] => []
  | p :: ps =>
    if p.mfg_batch_id == mfg_batch_id then ps
    else p :: removeFirstMatch ps mfg_batch_id

/-- The sort key order used by `sort_by_key(|r| r.mfg_batch_id().to_string())`:
compare elements by the lexicographic order of their ids. -/
def mfgBatchLe (a b : Protocol.MfgBatch) : Prop :=
  strLe a.mfg_batch_id b.mfg_batch_id = true

instance : DecidableRel mfgBatchLe :=
  fun a b => inferInstanceAs (Decidable (_ = true))

/-- `MfgBatchState::set_mfg_batch`: read and decode the existing record list
(empty if absent), remove the first element carrying the id, push the new
entity, stable-sort by id, rebuild through `MfgBatchListBuilder` and write
back.  Rust's `sort_by_key` is a stable sort; a stable sort's output is
uniquely determined by the input and the key order, so Mathlib's stable
`List.insertionSort` computes the identical list. -/
def set_mfg_batch (kv : BatchKV) (mfg_batch_id : String) (mfg_batch : Protocol.MfgBatch) :
    Except ApplyError BatchKV :=
  let address := compute_gs1_mfg_batch_address mfg_batch_id
  let mfg_batches :=
    match kv address with
    | some l => l
    | none => []
  let mfg_batches := removeFirstMatch mfg_batches mfg_batch_id
  let mfg_batches := mfg_batches ++ [mfg_batch]
  let mfg_batches := List.insertionSort mfgBatchLe mfg_batches
  match Protocol.MfgBatchListBuilder.build { mfg_batches := some mfg_batches } with
  | .error _ => .error (.invalidTransaction "Cannot build mfg_batch list")
  | .ok mfg_batch_list =>
    .ok (fun a => if a = address then some mfg_batch_list else kv a)

/-- `MfgBatchState::remove_mfg_batch`: read and decode (empty if absent),
filter out every element carrying the id; if the filtered list is empty,
delete the state entry, otherwise rebuild and write the filtered list. -/
def remove_mfg_batch (kv : BatchKV) (mfg_batch_id : String) : Except ApplyError BatchKV :=
  let address := compute_gs1_mfg_batch_address mfg_batch_id
  let mfg_batches :=
    match kv address with
    | some l => l
    | none => []
  let filtered_mfg_batches := mfg_batches.filter (fun p => !(p.mfg_batch_id == mfg_batch_id))
  if filtered_mfg_batches.isEmpty then
    .ok (fun a => if a = address then none else kv a)
  else
    match Protocol.MfgBatchListBuilder.build { mfg_batches := some filtered_mfg_batches } with
    | .error _ => .error (.invalidTransaction "Cannot build mfg_batch list")
    | .ok mfg_batch_list =>
      .ok (fun a => if a = address then some mfg_batch_list else kv a)

end MfgBatchState

/-! ### Transaction handler — `src/contracts/mfg_batch/src/handler.rs`

`Organization` and `Schema` are read through `get_organization` /
`get_schema` in `state.rs`; their protocol types (pike, schema) are outside
`src/`, so they are modelled with exactly the fields those functions and the
handler consume (`org_id`, `alternate_ids` with `id_type`/`id`; `name`,
`properties` with `name`/`data_type`/`required`).  The organization and
schema substrates are keyed here directly by the lookup argument: the code
composes an injective external address function with the key-value read, and
that composition is what the handler observes. -/

structure AlternateId where
  id_type : String
  id : String
deriving DecidableEq, Repr

structure Organization where
  org_id : String
  alternate_ids : List AlternateId
deriving DecidableEq, Repr

structure PropertyDefinition where
  name : String
  data_type : DataType
  required : Bool
deriving DecidableEq, Repr

structure Schema where
  name : String
  properties : List PropertyDefinition
deriving DecidableEq, Repr

structure MfgBatchCreateAction where
  mfg_batch_namespace : MfgBatchNamespace
  mfg_batch_id : String
  owner : String
  properties : List SchemaPropertyValue
deriving DecidableEq, Repr

/-- The ledger state visible to one `create_mfg_batch` invocation: the
mfg_batch record lists keyed by computed address, plus the organization and
schema record lists keyed by lookup id/name. -/
structure TxState where
  batchEntries : BatchKV
  orgEntries : String → Option (List Organization)
  schemaEntries : String → Option (List Schema)

/-- `MfgBatchState::get_organization`: read the organization list for the id
and return the first element whose `org_id` matches. -/
def get_organization (st : TxState) (id : String) : Option Organization :=
  match st.orgEntries id with
  | none => none
  | some orgs => orgs.find? (fun o => o.org_id == id)

/-- `MfgBatchState::get_schema`: read the schema list for the name and return
the first element whose `name` matches. -/
def get_schema (st : TxState) (name : String) : Option Schema :=
  match st.schemaEntries name with
  | none => none
  | some schemas => schemas.find? (fun s => s.name == name)

/-- The outcome of `PermissionChecker::has_permission`, an external
collaborator (spec section 6): `ok true`, `ok false`, or an evaluator
error. -/
def PermissionOutcome : Type := Except String Bool

/-- `check_permission` in `handler.rs`: `Ok(false)` and `Err(_)` are both
surfaced as `InvalidTransaction`. -/
def check_permission (permResult : PermissionOutcome) (signer permission record_owner : String) :
    Except ApplyError Unit :=
  match permResult with
  | .ok true => .ok ()
  | .ok false =>
    .error (.invalidTransaction
      ("The signer " ++ signer ++ " does not have the " ++ permission ++
        " permission for org " ++ record_owner))
  | .error e => .error (.invalidTransaction ("Permission check failed: " ++ e))

/-- `MfgBatchTransactionHandler::create_mfg_batch`.  `permResult` is the
permission evaluator's verdict for this signer (external collaborator) and
`gtinResult` the verdict of `validate_gtin` (repository code outside
`src/`, consumed as an oracle); every theorem below quantifies over both.
The check order is the source order: permission, existence, namespace
variant, GTIN validity, owning organization, gs1 company prefix containment,
schema existence, schema property membership, required schema properties,
protocol build, state write. -/
def create_mfg_batch (permResult : PermissionOutcome) (gtinResult : Except String Unit)
    (st : TxState) (payload : MfgBatchCreateAction) (signer : String) :
    Except ApplyError TxState :=
  let mfg_batch_id := payload.mfg_batch_id
  let owner := payload.owner
  match check_permission permResult signer "mfg_batch::can-create-mfg_batch" owner with
  | .error e => .error e
  | .ok () =>
  if (MfgBatchState.get_mfg_batch st.batchEntries mfg_batch_id).isSome then
    .error (.invalidTransaction ("Product already exists: " ++ mfg_batch_id))
  else if payload.mfg_batch_namespace ≠ MfgBatchNamespace.gs1 then
    .error (.invalidTransaction "Invalid mfg_batch namespace enum for mfg_batch")
  else
  match gtinResult with
  | .error e => .error (.invalidTransaction e)
  | .ok () =>
  match get_organization st owner with
  | none =>
    .error (.invalidTransaction ("The Agents organization does not exist: " ++ signer))
  | some org =>
  -- `if payload.mfg_batch_namespace() == &MfgBatchNamespace::Gs1` guards the
  -- prefix check in the source; the enum has the single variant Gs1.
  if payload.mfg_batch_namespace = MfgBatchNamespace.gs1 then
    match org.alternate_ids.find? (fun p => p.id_type == "gs1_company_prefix") with
    | none =>
      .error (.invalidTransaction
        "The agents organization does not have the gs1_company_prefix prefix")
    | some gp =>
    if !(strContains mfg_batch_id gp.id) then
      .error (.invalidTransaction
        "The agents organization does not own the GS1 company prefix in the GTIN mfg_batch_id")
    else
    match get_schema st "gs1_mfg_batch" with
    | none => .error (.invalidTransaction "gs1_mfg_batch schema has not been defined")
    | some schema =>
    match payload.properties.find?
        (fun property => schema.properties.all (fun p => !(p.name == property.name))) with
    | some property =>
      .error (.invalidTransaction
        (property.name ++ " is not a property that is defined by the gs1 schema"))
    | none =>
    match (schema.properties.filter (fun p => p.required)).find?
        (fun property =>
          !(payload.properties.any
            (fun p => p.name == property.name && p.data_type == property.data_type))) with
    | some property =>
      .error (.invalidTransaction ("Missing required field " ++ property.name))
    | none =>
    match Protocol.MfgBatchBuilder.build
        { mfg_batch_id := some mfg_batch_id
          mfg_batch_namespace := some payload.mfg_batch_namespace
          owner := some owner
          properties := some payload.properties } with
    | .error _ => .error (.invalidTransaction "Cannot build mfg_batch")
    | .ok new_mfg_batch =>
    match MfgBatchState.set_mfg_batch st.batchEntries mfg_batch_id new_mfg_batch with
    | .error e => .error e
    | .ok kv => .ok { st with batchEntries := kv }
  else
    .error (.invalidTransaction "Invalid mfg_batch namespace enum for mfg_batch")

/-- The prefix-ownership condition the implicit claim C10 describes: the
owning organization carries an alternate id of type `gs1_company_prefix`
whose value occurs as a substring of the payload's `mfg_batch_id`. -/
def ownsGs1CompanyPrefixOfPayload (st : TxState) (payload : MfgBatchCreateAction) : Prop :=
  ∃ org alt,
    get_organization st payload.owner = some org ∧
    alt ∈ org.alternate_ids ∧
    alt.id_type = "gs1_company_prefix" ∧
    strContains payload.mfg_batch_id alt.id = true

instance (st : TxState) (payload : MfgBatchCreateAction) :
    Decidable (ownsGs1CompanyPrefixOfPayload st payload) := by
  unfold ownsGs1CompanyPrefixOfPayload
  cases h : get_organization st payload.owner with
  | none =>
    exact .isFalse (by rintro ⟨org, alt, hor, -⟩; exact Option.noConfusion hor)
  | some org =>
    cases hd : decide (∃ alt ∈ org.alternate_ids,
        alt.id_type = "gs1_company_prefix" ∧ strContains payload.mfg_batch_id alt.id = true) with
    | true =>
      refine .isTrue ?_
      obtain ⟨alt, hmem, h1, h2⟩ := of_decide_eq_true hd
      exact ⟨org, alt, rfl, hmem, h1, h2⟩
    | false =>
      refine .isFalse ?_
      rintro ⟨org2, alt, hor, hmem, h1, h2⟩
      injection hor with e
      subst e
      have : (∃ alt ∈ org.alternate_ids,
          alt.id_type = "gs1_company_prefix" ∧
            strContains payload.mfg_batch_id alt.id = true) :=
        ⟨alt, hmem, h1, h2⟩
      simp [decide_eq_true this] at hd

/-! ### Projection store domain model — `src/sdk/src/mfg_batch/store/mod.rs`
and `store/error.rs`.

`GridStore.PropertyValue` is recursive through `struct_values`, so it is an
inductive type with accessor functions mirroring the Rust field accessors. -/

namespace GridStore

/-- `MfgBatchBuilderError` from `store/error.rs`: `MissingRequiredField` for a
required field that was not set, `BuildError` for other build failures (the
boxed source error is modelled by its message). -/
inductive MfgBatchBuilderError where
  | missingRequiredField (msg : String)
  | buildError (msg : String)
deriving DecidableEq, Repr

/-- Discriminator for the error kind a caller can branch on. -/
def MfgBatchBuilderError.isMissingRequiredField : MfgBatchBuilderError → Bool
  | .missingRequiredField _ => true
  | .buildError _ => false

structure LatLongValue where
  latitude : Int
  longitude : Int
deriving DecidableEq, Repr

inductive PropertyValue where
  | mk
    (mfg_batch_id : String)
    (mfg_batch_address : String)
    (property_name : String)
    (data_type : String)
    (bytes_value : Option (List Nat))
    (boolean_value : Option Bool)
    (number_value : Option Int)
    (string_value : Option String)
    (enum_value : Option Int)
    (struct_values : List PropertyValue)
    (lat_long_value : Option LatLongValue)
    (start_commit_num : Int)
    (end_commit_num : Int)
    (service_id : Option String)
deriving Repr

def PropertyValue.mfg_batch_id : PropertyValue → String
  | .mk v _ _ _ _ _ _ _ _ _ _ _ _ _ => v

def PropertyValue.property_name : PropertyValue → String
  | .mk _ _ v _ _ _ _ _ _ _ _ _ _ _ => v

def PropertyValue.data_type : PropertyValue → String
  | .mk _ _ _ v _ _ _ _ _ _ _ _ _ _ => v

def PropertyValue.struct_values : PropertyValue → List PropertyValue
  | .mk _ _ _ _ _ _ _ _ _ v _ _ _ _ => v

def PropertyValue.start_commit_num : PropertyValue → Int
  | .mk _ _ _ _ _ _ _ _ _ _ _ v _ _ => v

def PropertyValue.end_commit_num : PropertyValue → Int
  | .mk _ _ _ _ _ _ _ _ _ _ _ _ v _ => v

/-- Builder for `GridStore.PropertyValue`; `Default` in Rust gives empty
strings, `None` options, an empty vector and zero commit numbers. -/
structure PropertyValueBuilder where
  mfg_batch_id : String := ""
  mfg_batch_address : String := ""
  property_name : String := ""
  data_type : String := ""
  bytes_value : Option (List Nat) := none
  boolean_value : Option Bool := none
  number_value : Option Int := none
  string_value : Option String := none
  enum_value : Option Int := none
  struct_values : List PropertyValue := []
  lat_long_value : Option LatLongValue := none
  start_commit_num : Int := 0
  end_commit_num : Int := 0
  service_id : Option String := none
deriving Repr

/-- `PropertyValueBuilder::build`: the emptiness checks and the two interval
checks in source order (the second interval check is unreachable and kept
for fidelity). -/
def PropertyValueBuilder.build (b : PropertyValueBuilder) :
    Except MfgBatchBuilderError PropertyValue :=
  if b.mfg_batch_id.isEmpty then
    .error (.missingRequiredField "Missing mfg_batch_id")
  else if b.mfg_batch_address.isEmpty then
    .error (.missingRequiredField "Missing mfg_batch_address")
  else if b.property_name.isEmpty then
    .error (.missingRequiredField "Missing mfg_batch_name")
  else if b.data_type.isEmpty then
    .error (.missingRequiredField "Missing data_type")
  else if b.start_commit_num ≥ b.end_commit_num then
    .error (.missingRequiredField "start_commit_number must be less than end_commit_num")
  else if b.end_commit_num ≤ b.start_commit_num then
    .error (.missingRequiredField "end_commit_number must be greater than start_commit_num")
  else
    .ok (.mk b.mfg_batch_id b.mfg_batch_address b.property_name b.data_type
      b.bytes_value b.boolean_value b.number_value b.string_value b.enum_value
      b.struct_values b.lat_long_value b.start_commit_num b.end_commit_num b.service_id)

/-- The projection-store `MfgBatch` aggregate from `store/mod.rs`. -/
structure MfgBatch where
  mfg_batch_id : String
  mfg_batch_address : String
  mfg_batch_namespace : String
  owner : String
  start_commit_num : Int
  end_commit_num : Int
  service_id : Option String
  last_updated : Option Int
  properties : List PropertyValue
deriving Repr

structure MfgBatchBuilder where
  mfg_batch_id : String := ""
  mfg_batch_address : String := ""
  mfg_batch_namespace : String := ""
  owner : String := ""
  start_commit_num : Int := 0
  end_commit_num : Int := 0
  service_id : Option String := none
  last_updated : Option Int := none
  properties : List PropertyValue := []
deriving Repr

/-- `MfgBatchBuilder::build` from `store/mod.rs`: required-field emptiness
checks and the two interval checks, in source order. -/
def MfgBatchBuilder.build (b : MfgBatchBuilder) : Except MfgBatchBuilderError MfgBatch :=
  if b.mfg_batch_id.isEmpty then
    .error (.missingRequiredField "Missing mfg_batch_id")
  else if b.mfg_batch_address.isEmpty then
    .error (.missingRequiredField "Missing mfg_batch_address")
  else if b.mfg_batch_namespace.isEmpty then
    .error (.missingRequiredField "Missing mfg_batch_namespace")
  else if b.owner.isEmpty then
    .error (.missingRequiredField "Missing owner")
  else if b.start_commit_num ≥ b.end_commit_num then
    .error (.missingRequiredField "start_commit_number must be less than end_commit_num")
  else if b.end_commit_num ≤ b.start_commit_num then
    .error (.missingRequiredField "end_commit_number must be greater than start_commit_num")
  else
    .ok { mfg_batch_id := b.mfg_batch_id
          mfg_batch_address := b.mfg_batch_address
          mfg_batch_namespace := b.mfg_batch_namespace
          owner := b.owner
          start_commit_num := b.start_commit_num
          end_commit_num := b.end_commit_num
          service_id := b.service_id
          last_updated := b.last_updated
          properties := b.properties }

end GridStore

/-! ### Relational projection queries — `store/diesel/models.rs`,
`store/diesel/operations/get_mfg_batch.rs` and
`store/diesel/operations/list_mfg_batches.rs` (the `pg` backends; the
`sqlite` backends are textually identical).

SQL three-valued `=` never holds when either operand is `NULL`; `sqlEq` /
`sqlEqOpt` model the generated `col = value` comparisons accordingly.
Tables are lists of rows in insertion order; the queries have no `ORDER BY`,
and the model returns rows in table order. -/

def MAX_COMMIT_NUM : Int := 9223372036854775807

/-- The `mfg_batch` table row (`models.rs::MfgBatch`); `last_updated` is a
timestamp modelled as `Option Int`. -/
structure DbMfgBatch where
  id : Int
  mfg_batch_id : String
  mfg_batch_address : String
  mfg_batch_namespace : String
  owner : String
  start_commit_num : Int
  end_commit_num : Int
  service_id : Option String
  last_updated : Option Int
deriving DecidableEq, Repr

/-- The `mfg_batch_property_value` table row
(`models.rs::MfgBatchPropertyValue`). -/
structure DbMfgBatchPropertyValue where
  id : Int
  mfg_batch_id : String
  mfg_batch_address : String
  property_name : String
  parent_property : Option String
  data_type : String
  bytes_value : Option (List Nat)
  boolean_value : Option Bool
  number_value : Option Int
  string_value : Option String
  enum_value : Option Int
  latitude_value : Option Int
  longitude_value : Option Int
  start_commit_num : Int
  end_commit_num : Int
  service_id : Option String
deriving DecidableEq, Repr

/-- SQL `nullable_col = nullable_value`: true only when both sides are
non-null and equal (diesel renders a `None` bind as `NULL`, and `x = NULL`
is never true). -/
def sqlEqOpt (a b : Option String) : Bool :=
  match a, b with
  | some x, some y => x == y
  | _, _ => false

/-- The `service_id` filter shared by the queries: an explicit service id
compares with SQL `=`, no service id filters with `IS NULL`. -/
def serviceIdFilter (row_service_id : Option String) (service_id : Option String) : Bool :=
  match service_id with
  | some sid => sqlEqOpt row_service_id (some sid)
  | none => row_service_id == none

/-- `From<MfgBatchPropertyValue> for PropertyValue` (`models.rs`): a leaf
property value with empty `struct_values`; `lat_long_value` is populated
only when both coordinates are present. -/
def propertyValueOfRow (row : DbMfgBatchPropertyValue) : GridStore.PropertyValue :=
  .mk row.mfg_batch_id row.mfg_batch_address row.property_name row.data_type
    row.bytes_value row.boolean_value row.number_value row.string_value row.enum_value
    []
    (match row.latitude_value, row.longitude_value with
      | some lat, some long => some { latitude := lat, longitude := long }
      | _, _ => none)
    row.start_commit_num row.end_commit_num row.service_id

/-- `From<(MfgBatchPropertyValue, Vec<PropertyValue>)> for PropertyValue`:
the same conversion with the recursively resolved children attached. -/
def propertyValueOfRowWithChildren (row : DbMfgBatchPropertyValue)
    (children : List GridStore.PropertyValue) : GridStore.PropertyValue :=
  .mk row.mfg_batch_id row.mfg_batch_address row.property_name row.data_type
    row.bytes_value row.boolean_value row.number_value row.string_value row.enum_value
    children
    (match row.latitude_value, row.longitude_value with
      | some lat, some long => some { latitude := lat, longitude := long }
      | _, _ => none)
    row.start_commit_num row.end_commit_num row.service_id

/-- `From<(MfgBatch, Vec<PropertyValue>)> for GridMfgBatch` (`models.rs`). -/
def gridMfgBatchOfRow (row : DbMfgBatch) (properties : List GridStore.PropertyValue) :
    GridStore.MfgBatch :=
  { mfg_batch_id := row.mfg_batch_id
    mfg_batch_address := row.mfg_batch_address
    mfg_batch_namespace := row.mfg_batch_namespace
    owner := row.owner
    start_commit_num := row.start_commit_num
    end_commit_num := row.end_commit_num
    service_id := row.service_id
    last_updated := row.last_updated
    properties := properties }

namespace DieselOps

/-- `pg::get_mfg_batch`: the open row (`end_commit_num = MAX_COMMIT_NUM`)
for the id under the service filter; `.first` takes the first matching row
and a `NotFound` becomes `None`. -/
def get_mfg_batch_query (table : List DbMfgBatch) (mfg_batch_id : String)
    (service_id : Option String) : Option DbMfgBatch :=
  (table.filter (fun r =>
    r.mfg_batch_id == mfg_batch_id && r.end_commit_num == MAX_COMMIT_NUM &&
      serviceIdFilter r.service_id service_id)).head?

/-- `pg::get_root_values`: the open property rows of the batch whose
`parent_property` is `NULL`. -/
def get_root_values (table : List DbMfgBatchPropertyValue) (mfg_batch_id : String) :
    List DbMfgBatchPropertyValue :=
  table.filter (fun r =>
    r.mfg_batch_id == mfg_batch_id && r.parent_property == none &&
      r.end_commit_num == MAX_COMMIT_NUM)

/-- `pg::get_property_values`: for each value in the worklist, load the rows
whose `parent_property` equals (SQL `=`) that value's own `parent_property`
column, and recurse on them when non-empty.  The Rust recursion has no
structural decreasing measure, so the embedding carries explicit fuel; the
operations below supply `table.length + 1`, which is never exhausted on the
worklists the code actually builds (root rows have a `NULL`
`parent_property`, and SQL `=` against `NULL` selects no rows, so the
recursion in fact stops immediately). -/
def get_property_values (fuel : Nat) (table : List DbMfgBatchPropertyValue)
    (root_values : List DbMfgBatchPropertyValue) : List GridStore.PropertyValue :=
  match fuel with
  | 0 => []
  | fuel + 1 =>
    root_values.map (fun root_value =>
      let children := table.filter (fun r =>
        sqlEqOpt r.parent_property root_value.parent_property)
      if children.isEmpty then propertyValueOfRow root_value
      else propertyValueOfRowWithChildren root_value
        (get_property_values fuel table children))

/-- The `get_mfg_batch` store operation: entity row, root values, recursive
property resolution, assembled into the store aggregate. -/
def get_mfg_batch (batchTable : List DbMfgBatch) (propTable : List DbMfgBatchPropertyValue)
    (mfg_batch_id : String) (service_id : Option String) : Option GridStore.MfgBatch :=
  match get_mfg_batch_query batchTable mfg_batch_id service_id with
  | none => none
  | some mfg_batch =>
    let root_values := get_root_values propTable mfg_batch_id
    let values := get_property_values (propTable.length + 1) propTable root_values
    some (gridMfgBatchOfRow mfg_batch values)

/-- `pg::list_mfg_batches`: the open rows under the service filter with SQL
`LIMIT`/`OFFSET` applied after filtering (negative values clamp to zero in
the model; the claims only exercise non-negative ones). -/
def list_mfg_batches_query (table : List DbMfgBatch) (service_id : Option String)
    (offset limit : Int) : List DbMfgBatch :=
  (((table.filter (fun r =>
      r.end_commit_num == MAX_COMMIT_NUM && serviceIdFilter r.service_id service_id)).drop
    offset.toNat).take limit.toNat)

/-- The rows the full matching set contains, before pagination — what the
spec says `total_count` reports. -/
def list_mfg_batches_matching (table : List DbMfgBatch) (service_id : Option String) :
    List DbMfgBatch :=
  table.filter (fun r =>
    r.end_commit_num == MAX_COMMIT_NUM && serviceIdFilter r.service_id service_id)

/-- The `total` the `list_mfg_batches` operation stores into `Paging`: the
length of the already-paginated page (`db_mfg_batches.len()`). -/
def list_mfg_batches_total (table : List DbMfgBatch) (service_id : Option String)
    (offset limit : Int) : Nat :=
  (list_mfg_batches_query table service_id offset limit).length

end DieselOps

/-! ### Order instances for the sort key

`mfgBatchLe` is a total preorder (total and transitive), which is what
`List.sorted_insertionSort` needs to certify the output of the stable sort
in `set_mfg_batch`. -/

instance : IsTotal Protocol.MfgBatch MfgBatchState.mfgBatchLe := by
  constructor
  have key : ∀ a b : List Char, charListLe a b = true ∨ charListLe b a = true := by
    intro a
    induction a with
    | nil => intro b; left; rfl
    | cons x xs ih =>
      intro b
      cases b with
      | nil => right; rfl
      | cons y ys =>
        rcases lt_trichotomy x y with h | h | h
        · left; simp [charListLe, h]
        · subst h
          rcases ih ys with hh | hh
          · left; simp [charListLe, lt_irrefl, hh]
          · right; simp [charListLe, lt_irrefl, hh]
        · right; simp [charListLe, h]
  intro a b
  exact key a.mfg_batch_id.data b.mfg_batch_id.data

instance : IsTrans Protocol.MfgBatch MfgBatchState.mfgBatchLe := by
  constructor
  have key : ∀ a b c : List Char,
      charListLe a b = true → charListLe b c = true → charListLe a c = true := by
    intro a
    induction a with
    | nil => intro b c _ _; rfl
    | cons x xs ih =>
      intro b c hab hbc
      cases b with
      | nil => simp [charListLe] at hab
      | cons y ys =>
        cases c with
        | nil => simp [charListLe] at hbc
        | cons z zs =>
          by_cases hxy : x < y
          · by_cases hyz : y < z
            · simp [charListLe, lt_trans hxy hyz]
            · by_cases hzy : z < y
              · simp [charListLe, hyz, hzy] at hbc
              · have hyzeq : y = z := le_antisymm (not_lt.mp hzy) (not_lt.mp hyz)
                subst hyzeq
                simp [charListLe, hxy]
          · by_cases hyx : y < x
            · simp [charListLe, hxy, hyx] at hab
            · have hxyeq : x = y := le_antisymm (not_lt.mp hyx) (not_lt.mp hxy)
              subst hxyeq
              simp only [charListLe, lt_irrefl, if_false] at hab
              by_cases hxz : x < z
              · simp [charListLe, hxz]
              · by_cases hzx : z < x
                · simp [charListLe, hxz, hzx] at hbc
                · have hxzeq : x = z := le_antisymm (not_lt.mp hzx) (not_lt.mp hxz)
                  subst hxzeq
                  simp only [charListLe, lt_irrefl, if_false] at hbc ⊢
                  exact ih ys zs hab hbc
  intro a b c hab hbc
  exact key a.mfg_batch_id.data b.mfg_batch_id.data c.mfg_batch_id.data hab hbc

/-! ### Helper lemmas for the merge engine -/

/-- The record list the engine decodes is the stored list, or empty when the
entry is absent. -/
theorem decodeStored_eq_getD (o : Option (List Protocol.MfgBatch)) :
    (match o with | some l => l | none => []) = o.getD [] := by
  cases o <;> rfl

/-- `removeFirstMatch` only drops elements: the result is a sublist. -/
theorem removeFirstMatch_sublist (l : List Protocol.MfgBatch) (mfg_batch_id : String) :
    (MfgBatchState.removeFirstMatch l mfg_batch_id).Sublist l := by
  induction l with
  | nil => simp [MfgBatchState.removeFirstMatch]
  | cons p ps ih =>
    by_cases h : p.mfg_batch_id == mfg_batch_id
    · simp [MfgBatchState.removeFirstMatch, h]
    · simp only [MfgBatchState.removeFirstMatch, h, Bool.false_eq_true, if_false]
      exact List.Sublist.cons₂ p ih

/-- When the stored list holds at most one element with the target id,
`removeFirstMatch` leaves none. -/
theorem removeFirstMatch_countP_eq_zero (l : List Protocol.MfgBatch) (mfg_batch_id : String)
    (h : l.countP (fun p => p.mfg_batch_id == mfg_batch_id) ≤ 1) :
    (MfgBatchState.removeFirstMatch l mfg_batch_id).countP
      (fun p => p.mfg_batch_id == mfg_batch_id) = 0 := by
  induction l with
  | nil => rfl
  | cons p ps ih =>
    by_cases hp : p.mfg_batch_id == mfg_batch_id
    · simp only [MfgBatchState.removeFirstMatch, hp, if_true]
      simp only [List.countP_cons, hp, if_true] at h
      omega
    · simp only [List.countP_cons, hp, Bool.false_eq_true, if_false, Nat.add_zero] at h
      simp only [MfgBatchState.removeFirstMatch, hp, Bool.false_eq_true, if_false]
      simp only [List.countP_cons, hp, Bool.false_eq_true, if_false, Nat.add_zero]
      exact ih h

/-- `find?` returns the unique satisfying element of a list that contains
one. -/
theorem find?_eq_of_mem_of_unique {α : Type} (p : α → Bool) (a : α) (l : List α)
    (hpa : p a = true) (hmem : a ∈ l) (huniq : ∀ x ∈ l, p x = true → x = a) :
    l.find? p = some a := by
  induction l with
  | nil => cases hmem
  | cons x xs ih =>
    by_cases hx : p x
    · have : x = a := huniq x (List.mem_cons_self x xs) hx
      subst this
      simp [List.find?, hx]
    · have hxa : x ≠ a := fun e => hx (e ▸ hpa)
      have hmem2 : a ∈ xs := by
        rcases List.mem_cons.mp hmem with h | h
        · exact absurd h.symm hxa
        · exact h
      simp only [List.find?, hx]
      exact ih hmem2 (fun y hy hpy => huniq y (List.mem_cons_of_mem x hy) hpy)

/-- A list whose id-image is duplicate-free holds at most one element with
any given id. -/
theorem nodup_map_countP_le_one (l : List Protocol.MfgBatch) (mfg_batch_id : String)
    (h : (l.map (fun p => p.mfg_batch_id)).Nodup) :
    l.countP (fun p => p.mfg_batch_id == mfg_batch_id) ≤ 1 := by
  induction l with
  | nil => simp
  | cons p ps ih =>
    simp only [List.map_cons, List.nodup_cons] at h
    by_cases hp : p.mfg_batch_id == mfg_batch_id
    · simp only [List.countP_cons, hp, if_true]
      have hzero : ps.countP (fun q => q.mfg_batch_id == mfg_batch_id) = 0 := by
        rw [List.countP_eq_zero]
        intro q hq hpq
        have : q.mfg_batch_id = p.mfg_batch_id := by
          have h1 : q.mfg_batch_id = mfg_batch_id := by simpa using hpq
          have h2 : p.mfg_batch_id = mfg_batch_id := by simpa using hp
          rw [h1, h2]
        exact h.1 (this ▸ List.mem_map_of_mem (fun r => r.mfg_batch_id) hq)
      omega
    · simp only [List.countP_cons, hp, Bool.false_eq_true, if_false, Nat.add_zero]
      exact ih h.2

/-- The list builder accepts every non-empty list. -/
theorem mfgBatchListBuilder_build_ok (l : List Protocol.MfgBatch) (h : l ≠ []) :
    Protocol.MfgBatchListBuilder.build { mfg_batches := some l } = .ok l := by
  simp [Protocol.MfgBatchListBuilder.build, List.isEmpty_iff, h]

/-- The result of `set_mfg_batch`, in closed form: the write always
succeeds, and the stored list at the computed address becomes the stable
sort of (previous list minus the first id match) with the new entity
appended; every other address is untouched. -/
theorem set_mfg_batch_spec (kv : BatchKV) (mfg_batch_id : String) (mb : Protocol.MfgBatch) :
    MfgBatchState.set_mfg_batch kv mfg_batch_id mb =
      .ok (fun a => if a = compute_gs1_mfg_batch_address mfg_batch_id then
        some (List.insertionSort MfgBatchState.mfgBatchLe
          (MfgBatchState.removeFirstMatch
            ((kv (compute_gs1_mfg_batch_address mfg_batch_id)).getD []) mfg_batch_id ++ [mb]))
        else kv a) := by
  simp only [MfgBatchState.set_mfg_batch]
  rw [decodeStored_eq_getD]
  have hne : List.insertionSort MfgBatchState.mfgBatchLe
      (MfgBatchState.removeFirstMatch
        ((kv (compute_gs1_mfg_batch_address mfg_batch_id)).getD []) mfg_batch_id ++ [mb]) ≠ [] := by
    intro hnil
    have hperm := List.perm_insertionSort MfgBatchState.mfgBatchLe
      (MfgBatchState.removeFirstMatch
        ((kv (compute_gs1_mfg_batch_address mfg_batch_id)).getD []) mfg_batch_id ++ [mb])
    rw [hnil] at hperm
    have := hperm.length_eq
    simp at this
  rw [mfgBatchListBuilder_build_ok _ hne]

/-- C1 (counterexample): the claim quantifies over every entity, but
`set_mfg_batch(batch_id, entity)` stores the entity under `batch_id`'s
address while `get_mfg_batch(batch_id)` scans for an element whose own
`mfg_batch_id` equals `batch_id`; an entity whose id differs from the key it
was set under is therefore not returned.  On the empty state, setting key
`"aaa"` with an entity whose id is `"bbb"` succeeds, and the subsequent get
of `"aaa"` returns `none`, not the entity most recently set. -/
theorem set_then_get_mismatched_id_counterexample :
    ∃ kv2, MfgBatchState.set_mfg_batch (fun _ => none) "aaa"
        { mfg_batch_id := "bbb", mfg_batch_namespace := .gs1, owner := "org1",
          properties := [] } = .ok kv2 ∧
      MfgBatchState.get_mfg_batch kv2 "aaa" = none :=
  ⟨_, set_mfg_batch_spec _ _ _, by decide⟩

/-- C1 (amended): for every ledger key-value state whose record list at the
computed address holds at most one element with the target id, and every
entity whose `mfg_batch_id` equals the `batch_id` it is set under,
`set_mfg_batch` then `get_mfg_batch` returns `some` of the entity most
recently set — including when an element with the same id was already
present (idempotent overwrite). -/
theorem set_then_get_mfg_batch (kv : BatchKV) (mfg_batch_id : String)
    (mb : Protocol.MfgBatch)
    (hid : mb.mfg_batch_id = mfg_batch_id)
    (hcount : (((kv (compute_gs1_mfg_batch_address mfg_batch_id)).getD []).countP
      (fun p => p.mfg_batch_id == mfg_batch_id)) ≤ 1) :
    ∃ kv2, MfgBatchState.set_mfg_batch kv mfg_batch_id mb = .ok kv2 ∧
      MfgBatchState.get_mfg_batch kv2 mfg_batch_id = some mb := by
  refine ⟨_, set_mfg_batch_spec kv mfg_batch_id mb, ?_⟩
  unfold MfgBatchState.get_mfg_batch
  simp only [if_pos rfl]
  have hperm := List.perm_insertionSort MfgBatchState.mfgBatchLe
    (MfgBatchState.removeFirstMatch
      ((kv (compute_gs1_mfg_batch_address mfg_batch_id)).getD []) mfg_batch_id ++ [mb])
  have hzero := removeFirstMatch_countP_eq_zero
    ((kv (compute_gs1_mfg_batch_address mfg_batch_id)).getD []) mfg_batch_id hcount
  apply find?_eq_of_mem_of_unique
  · simp [hid]
  · exact hperm.mem_iff.mpr (List.mem_append_right _ (List.mem_singleton_self mb))
  · intro x hx hpx
    rcases List.mem_append.mp (hperm.mem_iff.mp hx) with hx1 | hx1
    · exact absurd hpx (List.countP_eq_zero.mp hzero x hx1)
    · exact List.mem_singleton.mp hx1

/-- C1 (witness): a concrete run of the amended theorem on the empty state;
set of id `"688955434684"` followed by get returns the entity. -/
theorem set_then_get_mfg_batch_witness :
    ∃ kv2, MfgBatchState.set_mfg_batch (fun _ => none) "688955434684"
        { mfg_batch_id := "688955434684", mfg_batch_namespace := .gs1, owner := "Target",
          properties := [] } = .ok kv2 ∧
      MfgBatchState.get_mfg_batch kv2 "688955434684" =
        some { mfg_batch_id := "688955434684", mfg_batch_namespace := .gs1, owner := "Target",
               properties := [] } :=
  set_then_get_mfg_batch _ _ _ rfl (by decide)

/-- C2 (counterexample): the claim quantifies over every prior Record List
contents, but `set_mfg_batch` deduplicates only the id being set.  With a
prior list holding two elements with id `"111"` stored at the address of
`"222"`, setting `"222"` writes back a list whose id sequence is
`["111", "111", "222"]` — two elements share an id. -/
theorem set_mfg_batch_nodup_counterexample :
    ∃ kv2, MfgBatchState.set_mfg_batch
        (fun a => if a = compute_gs1_mfg_batch_address "222" then
          some [{ mfg_batch_id := "111", mfg_batch_namespace := .gs1, owner := "o1",
                  properties := [] },
                { mfg_batch_id := "111", mfg_batch_namespace := .gs1, owner := "o2",
                  properties := [] }]
          else none) "222"
        { mfg_batch_id := "222", mfg_batch_namespace := .gs1, owner := "o3",
          properties := [] } = .ok kv2 ∧
      kv2 (compute_gs1_mfg_batch_address "222") =
        some [{ mfg_batch_id := "111", mfg_batch_namespace := .gs1, owner := "o1",
                properties := [] },
              { mfg_batch_id := "111", mfg_batch_namespace := .gs1, owner := "o2",
                properties := [] },
              { mfg_batch_id := "222", mfg_batch_namespace := .gs1, owner := "o3",
                properties := [] }] ∧
      ¬ (([{ mfg_batch_id := "111", mfg_batch_namespace := .gs1, owner := "o1",
             properties := [] },
           { mfg_batch_id := "111", mfg_batch_namespace := .gs1, owner := "o2",
             properties := [] },
           { mfg_batch_id := "222", mfg_batch_namespace := .gs1, owner := "o3",
             properties := [] }].map
            (fun p : Protocol.MfgBatch => p.mfg_batch_id)).Nodup) :=
  ⟨_, set_mfg_batch_spec _ _ _, by decide, by decide⟩

/-- C2 (amended): after every successful `set_mfg_batch(batch_id, entity)`
whose entity carries `batch_id` as its id, starting from a prior Record
List with pairwise-distinct ids (the data-model invariant of section 3),
the Record List written back has pairwise-distinct ids and is sorted
ascending by `mfg_batch_id`, so re-serialization of the same logical set is
deterministic. -/
theorem set_mfg_batch_written_list_invariant (kv : BatchKV) (mfg_batch_id : String)
    (mb : Protocol.MfgBatch)
    (hid : mb.mfg_batch_id = mfg_batch_id)
    (hnodup : (((kv (compute_gs1_mfg_batch_address mfg_batch_id)).getD []).map
      (fun p => p.mfg_batch_id)).Nodup) :
    ∃ kv2 written, MfgBatchState.set_mfg_batch kv mfg_batch_id mb = .ok kv2 ∧
      kv2 (compute_gs1_mfg_batch_address mfg_batch_id) = some written ∧
      (written.map (fun p => p.mfg_batch_id)).Nodup ∧
      written.Sorted MfgBatchState.mfgBatchLe := by
  refine ⟨_, _, set_mfg_batch_spec kv mfg_batch_id mb, if_pos rfl, ?_, ?_⟩
  · have hperm := (List.perm_insertionSort MfgBatchState.mfgBatchLe
      (MfgBatchState.removeFirstMatch
        ((kv (compute_gs1_mfg_batch_address mfg_batch_id)).getD []) mfg_batch_id ++ [mb])).map
      (fun p => p.mfg_batch_id)
    rw [hperm.nodup_iff]
    rw [List.map_append]
    have hsub := (removeFirstMatch_sublist
      ((kv (compute_gs1_mfg_batch_address mfg_batch_id)).getD []) mfg_batch_id).map
      (fun p => p.mfg_batch_id)
    have hzero := removeFirstMatch_countP_eq_zero
      ((kv (compute_gs1_mfg_batch_address mfg_batch_id)).getD []) mfg_batch_id
      (nodup_map_countP_le_one _ _ hnodup)
    rw [List.nodup_append]
    refine ⟨hsub.nodup hnodup, List.nodup_singleton _, ?_⟩
    intro s hs hs2
    simp only [List.map_cons, List.map_nil, List.mem_singleton] at hs2
    obtain ⟨x, hx, hxe⟩ := List.mem_map.mp hs
    have hpx : (x.mfg_batch_id == mfg_batch_id) = true := by
      rw [hxe, hs2, hid]
      simp
    exact List.countP_eq_zero.mp hzero x hx hpx
  · exact List.sorted_insertionSort MfgBatchState.mfgBatchLe _

/-- C2 (witness): a concrete run of the amended theorem — overwriting the
existing element `"688955434684"` next to a colliding-by-address neighbour
keeps the written list duplicate-free and sorted. -/
theorem set_mfg_batch_written_list_invariant_witness :
    ∃ kv2 written, MfgBatchState.set_mfg_batch
        (fun a => if a = compute_gs1_mfg_batch_address "688955434684" then
          some [{ mfg_batch_id := "111", mfg_batch_namespace := .gs1, owner := "o1",
                  properties := [] },
                { mfg_batch_id := "688955434684", mfg_batch_namespace := .gs1, owner := "o2",
                  properties := [] }]
          else none) "688955434684"
        { mfg_batch_id := "688955434684", mfg_batch_namespace := .gs1, owner := "o3",
          properties := [] } = .ok kv2 ∧
      kv2 (compute_gs1_mfg_batch_address "688955434684") = some written ∧
      (written.map (fun p => p.mfg_batch_id)).Nodup ∧
      written.Sorted MfgBatchState.mfgBatchLe :=
  set_mfg_batch_written_list_invariant _ _ _ rfl (by decide)

/-- C5: `remove_mfg_batch` always succeeds; at the computed address, the
state entry is deleted entirely when the filtered Record List is empty (an
empty-list blob is never written), and otherwise holds exactly the entities
whose `mfg_batch_id` differs from `batch_id`, preserved unchanged and in
their stored order; every other address is untouched, so colliding
neighbours survive a removal intact. -/
theorem remove_mfg_batch_spec (kv : BatchKV) (mfg_batch_id : String) :
    ∃ kv2, MfgBatchState.remove_mfg_batch kv mfg_batch_id = .ok kv2 ∧
      ∀ a, kv2 a =
        if a = compute_gs1_mfg_batch_address mfg_batch_id then
          (if (((kv (compute_gs1_mfg_batch_address mfg_batch_id)).getD []).filter
              (fun p => !(p.mfg_batch_id == mfg_batch_id))).isEmpty then
            none
          else
            some (((kv (compute_gs1_mfg_batch_address mfg_batch_id)).getD []).filter
              (fun p => !(p.mfg_batch_id == mfg_batch_id))))
        else kv a := by
  simp only [MfgBatchState.remove_mfg_batch]
  rw [decodeStored_eq_getD]
  by_cases hify : (((kv (compute_gs1_mfg_batch_address mfg_batch_id)).getD []).filter
      (fun p => !(p.mfg_batch_id == mfg_batch_id))).isEmpty
  · rw [if_pos hify]
    refine ⟨_, rfl, ?_⟩
    intro a
    by_cases ha : a = compute_gs1_mfg_batch_address mfg_batch_id
    · rw [if_pos ha, if_pos ha, if_pos hify]
    · rw [if_neg ha, if_neg ha]
  · rw [if_neg hify]
    have hne : (((kv (compute_gs1_mfg_batch_address mfg_batch_id)).getD []).filter
        (fun p => !(p.mfg_batch_id == mfg_batch_id))) ≠ [] := by
      intro hnil
      rw [hnil] at hify
      exact hify rfl
    rw [mfgBatchListBuilder_build_ok _ hne]
    refine ⟨_, rfl, ?_⟩
    intro a
    by_cases ha : a = compute_gs1_mfg_batch_address mfg_batch_id
    · rw [if_pos ha, if_pos ha, if_neg hify]
    · rw [if_neg ha, if_neg ha]

/-- C3 (counterexample): the claim says the codec rejects a key longer than
the 14-character padding width; `compute_gs1_mfg_batch_address` is a total
`fn (&str) -> String` with no error path, and on the 15-character key
`"123456789012345"` it produces an address — a 71-character one embedding
the whole key, instead of reporting an error. -/
theorem codec_produces_address_for_over_width_key :
    compute_gs1_mfg_batch_address "123456789012345" =
      "11bb0e01010000000000000000000000000000000000000000000012345678901234500" ∧
    (compute_gs1_mfg_batch_address "123456789012345").length = 71 ∧
    ("123456789012345" : String).length = 15 := by
  refine ⟨by decide, by decide, by decide⟩

/-- C3 (amended): the codec does not reject an over-width key — it is total
and, for every key longer than 14 characters, returns the namespace
prefixes followed by the key itself and the `"00"` suffix.  The key is
embedded verbatim (never truncated to the fixed width): the resulting
address has length `56 + key length`, exceeding the fixed 70-character
width, so no two distinct keys collapse onto one fixed-width address by
truncation. -/
theorem codec_embeds_over_width_key (k : String) (h : 14 < k.length) :
    compute_gs1_mfg_batch_address k =
      GRID_NAMESPACE ++ MFG_BATCH_KIND ++ "01" ++ ZEROS44 ++ k ++ "00" ∧
    (compute_gs1_mfg_batch_address k).length = 56 + k.length := by
  have hpad : padLeft14 k = k := by
    unfold padLeft14
    rw [if_neg (by omega)]
  constructor
  · unfold compute_gs1_mfg_batch_address
    rw [hpad]
  · simp only [compute_gs1_mfg_batch_address, hpad, String.length_append,
      GRID_NAMESPACE, MFG_BATCH_KIND, ZEROS44]
    have h1 : ("11bb0e" : String).length = 6 := rfl
    have h2 : ("01" : String).length = 2 := rfl
    have h3 : ("00000000000000000000000000000000000000000000" : String).length = 44 := rfl
    have h4 : ("00" : String).length = 2 := rfl
    omega

/-- C3 (witness): the amended theorem at the concrete 15-character key. -/
theorem codec_embeds_over_width_key_witness :
    compute_gs1_mfg_batch_address "123456789012345" =
      GRID_NAMESPACE ++ MFG_BATCH_KIND ++ "01" ++ ZEROS44 ++ "123456789012345" ++ "00" ∧
    (compute_gs1_mfg_batch_address "123456789012345").length = 56 + ("123456789012345" : String).length :=
  codec_embeds_over_width_key "123456789012345" (by decide)

/-- C4 (counterexample): two distinct keys of length at most 14 that agree
after zero-padding collide: the GTIN-12 `"036000291452"` and its GTIN-13
zero-padded form `"0036000291452"` (both carrying the same valid GS1 check
digit) map to the same address although they do not differ beyond the
padding width. -/
theorem address_collision_within_padding_width :
    compute_gs1_mfg_batch_address "036000291452" =
      compute_gs1_mfg_batch_address "0036000291452" ∧
    ("036000291452" : String) ≠ "0036000291452" ∧
    ("036000291452" : String).length ≤ 14 ∧
    ("0036000291452" : String).length ≤ 14 := by
  refine ⟨by decide, by decide, by decide, by decide⟩

/-- C4 (amended): two keys collide exactly when their zero-padded-to-14
forms coincide; in particular, distinct keys of equal length (at most 14 or
not) always map to distinct addresses, and the only collisions within the
padding width are between a key and its leading-zero variants. -/
theorem address_injective_up_to_padding (k1 k2 : String) :
    (compute_gs1_mfg_batch_address k1 = compute_gs1_mfg_batch_address k2 ↔
      padLeft14 k1 = padLeft14 k2) ∧
    (k1.length = k2.length → k1 ≠ k2 →
      compute_gs1_mfg_batch_address k1 ≠ compute_gs1_mfg_batch_address k2) := by
  have hiff : compute_gs1_mfg_batch_address k1 = compute_gs1_mfg_batch_address k2 ↔
      padLeft14 k1 = padLeft14 k2 := by
    constructor
    · intro h
      have hd : (compute_gs1_mfg_batch_address k1).data =
          (compute_gs1_mfg_batch_address k2).data := congrArg String.data h
      simp only [compute_gs1_mfg_batch_address, String.data_append, List.append_assoc] at hd
      have h1 := List.append_cancel_left hd
      have h2 := List.append_cancel_left h1
      have h3 := List.append_cancel_left h2
      have h4 := List.append_cancel_left h3
      exact String.ext (List.append_cancel_right h4)
    · intro h
      unfold compute_gs1_mfg_batch_address
      rw [h]
  refine ⟨hiff, ?_⟩
  intro hlen hne heq
  have hpad := hiff.mp heq
  by_cases h14 : k1.length < 14
  · have h14b : k2.length < 14 := hlen ▸ h14
    unfold padLeft14 at hpad
    rw [if_pos h14, if_pos h14b] at hpad
    have hd := congrArg String.data hpad
    simp only [String.data_append] at hd
    rw [hlen] at hd
    exact hne (String.ext (List.append_cancel_left hd))
  · have h14b : ¬ k2.length < 14 := hlen ▸ h14
    unfold padLeft14 at hpad
    rw [if_neg h14, if_neg h14b] at hpad
    exact hne hpad

/-- C4 (witness): the amended theorem at the equal-length distinct keys
`"1"` and `"2"` yields distinct addresses. -/
theorem address_injective_up_to_padding_witness :
    compute_gs1_mfg_batch_address "1" ≠ compute_gs1_mfg_batch_address "2" :=
  (address_injective_up_to_padding "1" "2").2 rfl (by decide)

/-- C8 (counterexample): the claim says a missing required field and an
invalid interval are reported as distinct, named error kinds.  In both
builders the invalid-interval failure is reported through the same
`MissingRequiredField` kind that reports missing fields (only the message
text differs), for `MfgBatchBuilder` (missing `owner` vs `start 5 / end 3`)
and for `PropertyValueBuilder` (missing `property_name` vs the same
interval) alike. -/
theorem builder_error_kinds_counterexample :
    GridStore.MfgBatchBuilder.build
      { mfg_batch_id := "b1", mfg_batch_address := "addr", mfg_batch_namespace := "gs1",
        owner := "", start_commit_num := 1, end_commit_num := 2 } =
      .error (.missingRequiredField "Missing owner") ∧
    GridStore.MfgBatchBuilder.build
      { mfg_batch_id := "b1", mfg_batch_address := "addr", mfg_batch_namespace := "gs1",
        owner := "org", start_commit_num := 5, end_commit_num := 3 } =
      .error (.missingRequiredField "start_commit_number must be less than end_commit_num") ∧
    GridStore.PropertyValueBuilder.build
      { mfg_batch_id := "b1", mfg_batch_address := "addr", property_name := "",
        data_type := "String", start_commit_num := 1, end_commit_num := 2 } =
      .error (.missingRequiredField "Missing mfg_batch_name") ∧
    GridStore.PropertyValueBuilder.build
      { mfg_batch_id := "b1", mfg_batch_address := "addr", property_name := "description",
        data_type := "String", start_commit_num := 5, end_commit_num := 3 } =
      .error (.missingRequiredField "start_commit_number must be less than end_commit_num") :=
  ⟨rfl, rfl, rfl, rfl⟩

/-- C8 (amended): `MfgBatchBuilder::build` and `PropertyValueBuilder::build`
return a value exactly when all required fields are non-empty and
`start_commit_num < end_commit_num`; a missing required field and an
invalid interval each cause an error, but both conditions are reported
through the single named kind `MissingRequiredField` (distinguished only by
message text), not through distinct kinds. -/
theorem builders_validate_fields_and_interval (b : GridStore.MfgBatchBuilder)
    (pb : GridStore.PropertyValueBuilder) :
    ((∃ v, b.build = .ok v) ↔
      (b.mfg_batch_id ≠ "" ∧ b.mfg_batch_address ≠ "" ∧ b.mfg_batch_namespace ≠ "" ∧
        b.owner ≠ "" ∧ b.start_commit_num < b.end_commit_num)) ∧
    (∀ e, b.build = .error e → e.isMissingRequiredField = true) ∧
    ((∃ v, pb.build = .ok v) ↔
      (pb.mfg_batch_id ≠ "" ∧ pb.mfg_batch_address ≠ "" ∧ pb.property_name ≠ "" ∧
        pb.data_type ≠ "" ∧ pb.start_commit_num < pb.end_commit_num)) ∧
    (∀ e, pb.build = .error e → e.isMissingRequiredField = true) := by
  refine ⟨?_, ?_, ?_, ?_⟩
  · unfold GridStore.MfgBatchBuilder.build
    split_ifs with h1 h2 h3 h4 h5
    · rw [String.isEmpty_iff] at h1
      simp [h1]
    · rw [String.isEmpty_iff] at h2
      simp [h2]
    · rw [String.isEmpty_iff] at h3
      simp [h3]
    · rw [String.isEmpty_iff] at h4
      simp [h4]
    · constructor
      · rintro ⟨v, hv⟩
        exact hv.elim
      · rintro ⟨-, -, -, -, hlt⟩
        omega
    · constructor
      · intro _
        rw [String.isEmpty_iff] at h1 h2 h3 h4
        exact ⟨h1, h2, h3, h4, by omega⟩
      · intro _
        exact ⟨_, rfl⟩
  · unfold GridStore.MfgBatchBuilder.build
    split_ifs <;> intro e he <;> first
      | exact he.elim
      | (injection he with he2; rw [← he2]; rfl)
  · unfold GridStore.PropertyValueBuilder.build
    split_ifs with h1 h2 h3 h4 h5
    · rw [String.isEmpty_iff] at h1
      simp [h1]
    · rw [String.isEmpty_iff] at h2
      simp [h2]
    · rw [String.isEmpty_iff] at h3
      simp [h3]
    · rw [String.isEmpty_iff] at h4
      simp [h4]
    · constructor
      · rintro ⟨v, hv⟩
        exact hv.elim
      · rintro ⟨-, -, -, -, hlt⟩
        omega
    · constructor
      · intro _
        rw [String.isEmpty_iff] at h1 h2 h3 h4
        exact ⟨h1, h2, h3, h4, by omega⟩
      · intro _
        exact ⟨_, rfl⟩
  · unfold GridStore.PropertyValueBuilder.build
    split_ifs <;> intro e he <;> first
      | exact he.elim
      | (injection he with he2; rw [← he2]; rfl)

/-- C8 (witness): the amended theorem applied to concrete builders — a
fully populated `MfgBatchBuilder` and `PropertyValueBuilder` with a valid
interval build successfully. -/
theorem builders_validate_fields_and_interval_witness :
    (∃ v, GridStore.MfgBatchBuilder.build
      { mfg_batch_id := "b1", mfg_batch_address := "addr", mfg_batch_namespace := "gs1",
        owner := "org", start_commit_num := 1, end_commit_num := 9223372036854775807 } =
        .ok v) ∧
    (∃ v, GridStore.PropertyValueBuilder.build
      { mfg_batch_id := "b1", mfg_batch_address := "addr", property_name := "description",
        data_type := "String", string_value := some "Lot A", start_commit_num := 1,
        end_commit_num := 4 } = .ok v) :=
  ⟨(builders_validate_fields_and_interval
      { mfg_batch_id := "b1", mfg_batch_address := "addr", mfg_batch_namespace := "gs1",
        owner := "org", start_commit_num := 1, end_commit_num := 9223372036854775807 }
      { mfg_batch_id := "b1", mfg_batch_address := "addr", property_name := "description",
        data_type := "String", string_value := some "Lot A", start_commit_num := 1,
        end_commit_num := 4 }).1.mpr (by refine ⟨by decide, by decide, by decide, by decide, by decide⟩),
   (builders_validate_fields_and_interval
      { mfg_batch_id := "b1", mfg_batch_address := "addr", mfg_batch_namespace := "gs1",
        owner := "org", start_commit_num := 1, end_commit_num := 9223372036854775807 }
      { mfg_batch_id := "b1", mfg_batch_address := "addr", property_name := "description",
        data_type := "String", string_value := some "Lot A", start_commit_num := 1,
        end_commit_num := 4 }).2.2.1.mpr
     (by refine ⟨by decide, by decide, by decide, by decide, by decide⟩)⟩

/-- The namespace enum has a single variant. -/
theorem mfgBatchNamespace_eq_gs1 (ns : MfgBatchNamespace) : ns = MfgBatchNamespace.gs1 := by
  cases ns
  rfl

/-- Inversion of a successful `create_mfg_batch`: success implies the batch
was absent from ledger state and the owning organization's
`gs1_company_prefix` alternate id occurs inside the payload id. -/
theorem create_mfg_batch_ok_inversion (permResult : PermissionOutcome)
    (gtinResult : Except String Unit) (st : TxState) (payload : MfgBatchCreateAction)
    (signer : String) (st2 : TxState)
    (h : create_mfg_batch permResult gtinResult st payload signer = .ok st2) :
    ownsGs1CompanyPrefixOfPayload st payload ∧
    (MfgBatchState.get_mfg_batch st.batchEntries payload.mfg_batch_id).isSome = false := by
  have hns := mfgBatchNamespace_eq_gs1 payload.mfg_batch_namespace
  unfold create_mfg_batch at h
  cases permResult with
  | error e => simp [check_permission] at h
  | ok bb =>
    cases bb with
    | false => simp [check_permission] at h
    | true =>
      simp only [check_permission] at h
      by_cases hsome : (MfgBatchState.get_mfg_batch st.batchEntries payload.mfg_batch_id).isSome
      · rw [if_pos hsome] at h
        exact absurd h (by simp)
      · rw [if_neg hsome] at h
        rw [hns] at h
        rw [if_neg (by simp)] at h
        refine ⟨?_, by simpa using hsome⟩
        cases gtinResult with
        | error e => simp at h
        | ok u =>
          obtain ⟨⟩ := u
          simp only [] at h
          cases horg : get_organization st payload.owner with
          | none => rw [horg] at h; simp at h
          | some org =>
            rw [horg] at h
            simp only [if_pos rfl] at h
            cases hfind : org.alternate_ids.find? (fun p => p.id_type == "gs1_company_prefix") with
            | none => rw [hfind] at h; simp at h
            | some gp =>
              rw [hfind] at h
              by_cases hc : strContains payload.mfg_batch_id gp.id
              · refine ⟨org, gp, horg, List.mem_of_find?_eq_some hfind, ?_, hc⟩
                have := List.find?_some hfind
                simpa using this
              · simp [hc] at h

/-- Every error `create_mfg_batch` returns is a caller-input
(`InvalidTransaction`) error: no path reports an internal error in the
model (context reads are pure and stored entries decode). -/
theorem create_mfg_batch_error_kind (permResult : PermissionOutcome)
    (gtinResult : Except String Unit) (st : TxState) (payload : MfgBatchCreateAction)
    (signer : String) (e : ApplyError)
    (h : create_mfg_batch permResult gtinResult st payload signer = .error e) :
    ∃ m, e = .invalidTransaction m := by
  unfold create_mfg_batch at h
  cases permResult with
  | error e2 =>
    simp only [check_permission] at h
    injection h with hh
    exact ⟨_, hh.symm⟩
  | ok bb =>
    cases bb with
    | false =>
      simp only [check_permission] at h
      injection h with hh
      exact ⟨_, hh.symm⟩
    | true =>
      simp only [check_permission, set_mfg_batch_spec] at h
      repeat' split at h
      all_goals first
        | (injection h with hh; exact ⟨_, hh.symm⟩)
        | injection h

/-- C9: for every permission-evaluator and GTIN-validator behaviour, every
ledger state and every create payload whose `mfg_batch_id` is already
present in ledger state, `create_mfg_batch` returns a caller-input
(`InvalidTransaction`) error; since the returned value is an error and the
single state write happens only on the success path, no state entry is
written, so a create mutation can never overwrite an existing batch. -/
theorem create_mfg_batch_rejects_existing (permResult : PermissionOutcome)
    (gtinResult : Except String Unit) (st : TxState) (payload : MfgBatchCreateAction)
    (signer : String)
    (hsome : (MfgBatchState.get_mfg_batch st.batchEntries payload.mfg_batch_id).isSome = true) :
    ∃ m, create_mfg_batch permResult gtinResult st payload signer =
      .error (.invalidTransaction m) := by
  cases hres : create_mfg_batch permResult gtinResult st payload signer with
  | ok st2 =>
    have := (create_mfg_batch_ok_inversion permResult gtinResult st payload signer st2 hres).2
    rw [hsome] at this
    cases this
  | error e =>
    obtain ⟨m, hm⟩ := create_mfg_batch_error_kind permResult gtinResult st payload signer e hres
    exact ⟨m, by rw [hm]⟩

/-- C9 (witness): with the batch `"00068895543210"` already stored at its
computed address, a create of the same id is rejected with an
`InvalidTransaction` error, for the all-permissive oracles. -/
theorem create_mfg_batch_rejects_existing_witness :
    ∃ m, create_mfg_batch (.ok true) (.ok ())
      { batchEntries := fun a => if a = compute_gs1_mfg_batch_address "00068895543210" then
          some [{ mfg_batch_id := "00068895543210", mfg_batch_namespace := .gs1,
                  owner := "myorg", properties := [] }]
          else none
        orgEntries := fun _ => none
        schemaEntries := fun _ => none }
      { mfg_batch_namespace := .gs1, mfg_batch_id := "00068895543210", owner := "myorg",
        properties := [] } "signer" = .error (.invalidTransaction m) :=
  create_mfg_batch_rejects_existing _ _ _ _ _ (by decide)

/-- C10: `create_mfg_batch` succeeds only if the owning organization
carries a `gs1_company_prefix` alternate id whose value occurs as a
substring anywhere inside the payload's `mfg_batch_id` (containment, not a
leading-prefix match); when no such alternate id and containment exist, it
returns a caller-input (`InvalidTransaction`) error, and — the single state
write being on the success path — writes no state. -/
theorem create_mfg_batch_requires_company_prefix_containment
    (permResult : PermissionOutcome) (gtinResult : Except String Unit) (st : TxState)
    (payload : MfgBatchCreateAction) (signer : String) :
    (∀ st2, create_mfg_batch permResult gtinResult st payload signer = .ok st2 →
      ownsGs1CompanyPrefixOfPayload st payload) ∧
    (¬ ownsGs1CompanyPrefixOfPayload st payload →
      ∃ m, create_mfg_batch permResult gtinResult st payload signer =
        .error (.invalidTransaction m)) := by
  constructor
  · intro st2 h
    exact (create_mfg_batch_ok_inversion permResult gtinResult st payload signer st2 h).1
  · intro hno
    cases hres : create_mfg_batch permResult gtinResult st payload signer with
    | ok st2 =>
      exact absurd
        ((create_mfg_batch_ok_inversion permResult gtinResult st payload signer st2 hres).1) hno
    | error e =>
      obtain ⟨m, hm⟩ := create_mfg_batch_error_kind permResult gtinResult st payload signer e hres
      exact ⟨m, by rw [hm]⟩

/-- C10 (witness): both directions at concrete inputs.  A create whose id
`"00068895543210"` contains the organization prefix `"6889"` in the middle
(not as a leading prefix) succeeds, and its success yields the containment
condition; a create for an organization carrying no matching prefix is
rejected with an `InvalidTransaction` error. -/
theorem create_mfg_batch_requires_company_prefix_containment_witness :
    ownsGs1CompanyPrefixOfPayload
      { batchEntries := fun _ => none
        orgEntries := fun i => if i = "myorg" then
          some [{ org_id := "myorg",
                  alternate_ids := [{ id_type := "gs1_company_prefix", id := "6889" }] }]
          else none
        schemaEntries := fun n => if n = "gs1_mfg_batch" then
          some [{ name := "gs1_mfg_batch",
                  properties := [{ name := "description", data_type := .string,
                                   required := true }] }]
          else none }
      { mfg_batch_namespace := .gs1, mfg_batch_id := "00068895543210", owner := "myorg",
        properties := [{ name := "description", data_type := .string }] } ∧
    (∃ m, create_mfg_batch (.ok true) (.ok ())
      { batchEntries := fun _ => none
        orgEntries := fun i => if i = "myorg" then
          some [{ org_id := "myorg",
                  alternate_ids := [{ id_type := "gs1_company_prefix", id := "9999" }] }]
          else none
        schemaEntries := fun _ => none }
      { mfg_batch_namespace := .gs1, mfg_batch_id := "00068895543210", owner := "myorg",
        properties := [] } "signer" = .error (.invalidTransaction m)) :=
  ⟨(create_mfg_batch_requires_company_prefix_containment (.ok true) (.ok ()) _ _ "signer").1
      _ rfl,
   (create_mfg_batch_requires_company_prefix_containment (.ok true) (.ok ()) _ _ "signer").2
      (by decide)⟩

/-- C6 (code bug): `list_mfg_batches` computes `total` as the length of the
already-paginated page (`db_mfg_batches.len()` after `LIMIT`/`OFFSET`), not
the size of the full matching set.  With two open rows matching the null
service filter and `offset 0, limit 1`, the operation reports a total of 1
while the full matching set has 2 rows — the reported total depends on
`limit`, contradicting the claim. -/
theorem list_total_is_page_length_not_matching_count :
    DieselOps.list_mfg_batches_total
      [{ id := 1, mfg_batch_id := "b1", mfg_batch_address := "addr1",
         mfg_batch_namespace := "gs1", owner := "o", start_commit_num := 1,
         end_commit_num := MAX_COMMIT_NUM, service_id := none, last_updated := none },
       { id := 2, mfg_batch_id := "b2", mfg_batch_address := "addr2",
         mfg_batch_namespace := "gs1", owner := "o", start_commit_num := 1,
         end_commit_num := MAX_COMMIT_NUM, service_id := none, last_updated := none }]
      none 0 1 = 1 ∧
    (DieselOps.list_mfg_batches_matching
      [{ id := 1, mfg_batch_id := "b1", mfg_batch_address := "addr1",
         mfg_batch_namespace := "gs1", owner := "o", start_commit_num := 1,
         end_commit_num := MAX_COMMIT_NUM, service_id := none, last_updated := none },
       { id := 2, mfg_batch_id := "b2", mfg_batch_address := "addr2",
         mfg_batch_namespace := "gs1", owner := "o", start_commit_num := 1,
         end_commit_num := MAX_COMMIT_NUM, service_id := none, last_updated := none }]
      none).length = 2 := by
  refine ⟨by decide, by decide⟩

/-- C7 (code bug): the children query in `get_property_values` filters on
`parent_property = <the root's own parent_property>` — for a root row that
column is `NULL`, and SQL `=` against `NULL` matches nothing — instead of
on the `"batch_id:property_name"` key under which `make_property_values`
(the write path in `models.rs`) stores the children.  With a root property
`dims` of batch `b1` and a child row whose `parent_property` is
`"b1:dims"`, the claim expects the returned `dims` node to carry the child
in `struct_values`; the code returns `dims` as a leaf (`struct_values`
empty), although the stored rows referring to `dims` by parent link are
exactly that child row. -/
theorem get_mfg_batch_drops_struct_children :
    ∃ g, DieselOps.get_mfg_batch
      [{ id := 1, mfg_batch_id := "b1", mfg_batch_address := "addrb1",
         mfg_batch_namespace := "gs1", owner := "o", start_commit_num := 1,
         end_commit_num := MAX_COMMIT_NUM, service_id := none, last_updated := none }]
      [{ id := 1, mfg_batch_id := "b1", mfg_batch_address := "addrb1",
         property_name := "dims", parent_property := none, data_type := "Struct",
         bytes_value := none, boolean_value := none, number_value := none,
         string_value := none, enum_value := none, latitude_value := none,
         longitude_value := none, start_commit_num := 1,
         end_commit_num := MAX_COMMIT_NUM, service_id := none },
       { id := 2, mfg_batch_id := "b1", mfg_batch_address := "addrb1",
         property_name := "w", parent_property := some "b1:dims", data_type := "Number",
         bytes_value := none, boolean_value := none, number_value := some 10,
         string_value := none, enum_value := none, latitude_value := none,
         longitude_value := none, start_commit_num := 1,
         end_commit_num := MAX_COMMIT_NUM, service_id := none }]
      "b1" none = some g ∧
      g.properties.map GridStore.PropertyValue.struct_values = [[]] ∧
    ([{ id := 1, mfg_batch_id := "b1", mfg_batch_address := "addrb1",
        property_name := "dims", parent_property := none, data_type := "Struct",
        bytes_value := none, boolean_value := none, number_value := none,
        string_value := none, enum_value := none, latitude_value := none,
        longitude_value := none, start_commit_num := 1,
        end_commit_num := MAX_COMMIT_NUM, service_id := none },
      { id := 2, mfg_batch_id := "b1", mfg_batch_address := "addrb1",
        property_name := "w", parent_property := some "b1:dims", data_type := "Number",
        bytes_value := none, boolean_value := none, number_value := some 10,
        string_value := none, enum_value := none, latitude_value := none,
        longitude_value := none, start_commit_num := 1,
        end_commit_num := MAX_COMMIT_NUM, service_id := none }].filter
      (fun r : DbMfgBatchPropertyValue => r.parent_property == some ("b1" ++ ":" ++ "dims"))) =
    [{ id := 2, mfg_batch_id := "b1", mfg_batch_address := "addrb1",
       property_name := "w", parent_property := some "b1:dims", data_type := "Number",
       bytes_value := none, boolean_value := none, number_value := some 10,
       string_value := none, enum_value := none, latitude_value := none,
       longitude_value := none, start_commit_num := 1,
       end_commit_num := MAX_COMMIT_NUM, service_id := none }] :=
  ⟨_, rfl, rfl, by decide⟩
